import Mathlib

/-!
Shallow embedding of the `usage` Rust crate: the generic wrapper
`Usage<U, T>` (src/lib.rs) and the construction helper trait
`AsUsage` (src/as_usage.rs), together with theorems checking the
crate's specification claims against these definitions.

Conventions of the embedding:
- `PhantomData<U>` is a zero-size marker; it is embedded as a structure
  with no fields (exactly one value), parameterized by the marker type.
- Rust trait methods parameterized over the payload's own trait
  implementation are embedded as Lean functions taking that
  implementation either as a typeclass instance (`BEq`, `Inhabited`)
  or as an explicit function argument (comparison, hashing, debug
  formatting, iterator collection), so the theorems quantify over every
  possible payload implementation.
- A shared reference `&T` becomes the value of type `T` it points at; a
  write through a mutable reference returned by `deref_mut`/`borrow_mut`
  (which is `&mut self.data`) becomes a function from the old wrapper and
  the written payload value to the updated wrapper.
-/

/-- Embeds Rust `std::marker::PhantomData<U>`: a zero-size value whose only
role is to carry the marker type parameter `U`. It has no fields, hence
exactly one value. -/
structure PhantomData (U : Type u) : Type where

/-- Embeds `PhantomData::<U>::default()` (what `Default::default()` produces
for the `_phantom` field). -/
def PhantomData.default (U : Type u) : PhantomData U := ⟨⟩

/-- Embeds `pub struct Usage<U, T> { pub data: T, _phantom: PhantomData<U> }`
from src/lib.rs. -/
structure Usage (U : Type u) (T : Type v) : Type v where
  data : T
  phantom : PhantomData U

/-- Embeds `AsUsage::as_usage` from src/as_usage.rs:
`Usage { data, _phantom: Default::default() }`. The blanket
`impl<T> AsUsage for T` makes it available for every marker type `U`,
which the explicit `U` parameter reflects. -/
def AsUsage.as_usage (U : Type u) {T : Type v} (data : T) : Usage U T :=
  ⟨data, PhantomData.default U⟩

/-- Embeds `Usage::into_inner` from src/lib.rs: `self.data`. -/
def Usage.into_inner {U : Type u} {T : Type v} (self : Usage U T) : T :=
  self.data

/-- Embeds `impl<U, T> PartialEq for Usage<U, T> where T: PartialEq`:
`self.data.eq(&other.data)`. The payload's `PartialEq` is the `BEq T`
instance. -/
def Usage.eq {U : Type u} {T : Type v} [BEq T] (self other : Usage U T) : Bool :=
  self.data == other.data

/-- Embeds `impl<U, T> PartialOrd for Usage<U, T> where T: PartialOrd`:
`self.data.partial_cmp(&other.data)`. The payload's `partial_cmp` is the
explicit argument `pc`. -/
def Usage.partialCmp {U : Type u} {T : Type v} (pc : T → T → Option Ordering)
    (self other : Usage U T) : Option Ordering :=
  pc self.data other.data

/-- Embeds `impl<U, T> Ord for Usage<U, T> where T: Ord`:
`self.data.cmp(&other.data)`. The payload's `cmp` is the explicit
argument `c`. -/
def Usage.cmp {U : Type u} {T : Type v} (c : T → T → Ordering)
    (self other : Usage U T) : Ordering :=
  c self.data other.data

/-- Embeds `impl<U, T> Hash for Usage<U, T> where T: Hash`:
`self.data.hash(state)`. A hasher is a state of type `H`; the payload's
`Hash::hash` is the explicit argument `h`, mapping a payload value and a
hasher state to the updated hasher state. -/
def Usage.hash {U : Type u} {T : Type v} {H : Type w} (h : T → H → H)
    (self : Usage U T) (state : H) : H :=
  h self.data state

/-- Embeds `impl<U, T> Default for Usage<U, T> where T: Default`:
`Usage { data: Default::default(), _phantom: Default::default() }`.
The payload's `Default` is the `Inhabited T` instance. -/
def Usage.default (U : Type u) (T : Type v) [Inhabited T] : Usage U T :=
  ⟨Inhabited.default, PhantomData.default U⟩

/-- Embeds `impl<U, T> From<T> for Usage<U, T>`: `U::as_usage(t)`.
(Named `fromT` because `from` is a reserved word in Lean.) -/
def Usage.fromT (U : Type u) {T : Type v} (t : T) : Usage U T :=
  AsUsage.as_usage U t

/-- Embeds `impl<U, T, V> FromIterator<V> for Usage<U, T> where
T: FromIterator<V>`: `U::as_usage(iter.into_iter().collect())`. An
iterator over items `V` is a `List V`; the payload's
`FromIterator::from_iter` (what `collect` dispatches to) is the explicit
argument `collectT`. -/
def Usage.from_iter (U : Type u) {T : Type v} {V : Type w}
    (collectT : List V → T) (iter : List V) : Usage U T :=
  AsUsage.as_usage U (collectT iter)

/-- Embeds `impl<U, T> Borrow<T> for Usage<U, T>`: `&self.data`, as the
payload value the returned reference points at. -/
def Usage.borrow {U : Type u} {T : Type v} (self : Usage U T) : T :=
  self.data

/-- Embeds `impl<U, T> Deref for Usage<U, T>`: `&self.data`, as the
payload value the returned reference points at. -/
def Usage.deref {U : Type u} {T : Type v} (self : Usage U T) : T :=
  self.data

/-- Embeds writing `v` through the mutable reference returned by
`impl<U, T> BorrowMut<T> for Usage<U, T>` (`&mut self.data`): the wrapper
after the write has `v` as its `data` field and is otherwise unchanged. -/
def Usage.borrow_mut_write {U : Type u} {T : Type v}
    (self : Usage U T) (v : T) : Usage U T :=
  ⟨v, self.phantom⟩

/-- Embeds writing `v` through the mutable reference returned by
`impl<U, T> DerefMut for Usage<U, T>` (`&mut self.data`): the wrapper
after the write has `v` as its `data` field and is otherwise unchanged. -/
def Usage.deref_mut_write {U : Type u} {T : Type v}
    (self : Usage U T) (v : T) : Usage U T :=
  ⟨v, self.phantom⟩

/-- Embeds `impl<U, T> Debug for Usage<U, T> where T: Debug`:
`f.debug_struct("Usage").field("data", &self.data).field("_phantom",
&format!("PhantomData<{}>", type_name::<U>())).finish()`, in the standard
(non-alternate) `debug_struct` rendering. The payload's `Debug` is the
explicit argument `dbg`; `std::any::type_name::<U>()` is the explicit
argument `typeName`. The `format!`-produced `String` field renders with
surrounding quotes. -/
def Usage.fmt {U : Type u} {T : Type v} (dbg : T → String)
    (typeName : String) (self : Usage U T) : String :=
  "Usage \x7b data: " ++ dbg self.data ++ ", _phantom: \"PhantomData<"
    ++ typeName ++ ">\" \x7d"

/-- C1: for every marker type `U` and payload value `v`, the construction
helper stores exactly `v` as the payload and `into_inner` returns it
unchanged: `into_inner(U::as_usage(v)) = v`, totally and infallibly. -/
theorem as_usage_into_inner_round_trip (U : Type u) {T : Type v} (v : T) :
    Usage.into_inner (AsUsage.as_usage U v) = v :=
  rfl

/-- C2: for every marker type `U`, payload equality implementation, and
payloads `a`, `b`, the wrappers `U::as_usage(a)` and `U::as_usage(b)`
compare equal exactly when `a == b`; the marker `U` is arbitrary and
contributes nothing. -/
theorem usage_eq_iff_payload_eq (U : Type u) {T : Type v} [BEq T] (a b : T) :
    Usage.eq (AsUsage.as_usage U a) (AsUsage.as_usage U b) = (a == b) :=
  rfl

/-- C3: for every payload value `v` and every operation `op` on the payload
type, applying `op` through the wrapper's transparent access (`deref` or
`borrow`, each returning the payload) gives the same result as applying
`op` to `v` directly. -/
theorem transparent_access_op_equiv (U : Type u) {T : Type v} {R : Type w}
    (op : T → R) (v : T) :
    op (Usage.deref (AsUsage.as_usage U v)) = op v ∧
    op (Usage.borrow (AsUsage.as_usage U v)) = op v :=
  ⟨rfl, rfl⟩

/-- C4: for any finite sequence of elements and any way `collectT` of
collecting such a sequence into the payload type `T`, collecting into `T`
and then wrapping with marker `U` equals collecting directly into the
wrapper via its `FromIterator` implementation. -/
theorem from_iter_eq_collect_then_wrap (U : Type u) {T : Type v} {V : Type w}
    (collectT : List V → T) (iter : List V) :
    Usage.from_iter U collectT iter = AsUsage.as_usage U (collectT iter) :=
  rfl

/-- C5: for every marker type `U` and payload value `v`, the `From<T>`
conversion produces the same wrapper as the construction helper
`U::as_usage(v)`; both are total with no side conditions. -/
theorem from_eq_as_usage (U : Type u) {T : Type v} (v : T) :
    Usage.fromT U v = AsUsage.as_usage U v :=
  rfl

/-- C6: for every marker type `U` and every partial (`pc`) and total (`c`)
payload comparison, comparing two wrappers returns exactly the result of
comparing the payloads; the marker never influences the ordering. -/
theorem usage_cmp_delegates_to_payload (U : Type u) {T : Type v}
    (pc : T → T → Option Ordering) (c : T → T → Ordering) (a b : T) :
    Usage.partialCmp pc (AsUsage.as_usage U a) (AsUsage.as_usage U b) = pc a b ∧
    Usage.cmp c (AsUsage.as_usage U a) (AsUsage.as_usage U b) = c a b :=
  ⟨rfl, rfl⟩

/-- C7: for every hasher state `s` and every wrapper `w`, feeding `w` to the
hasher yields exactly the state produced by feeding its payload; and when
the payload's hash is consistent with payload equality, equal wrappers
hash identically. -/
theorem usage_hash_delegates_and_consistent (U : Type u) {T : Type v}
    {H : Type w} [BEq T] (h : T → H → H)
    (hcons : ∀ a b : T, (a == b) = true → ∀ s : H, h a s = h b s) :
    (∀ (w : Usage U T) (s : H), Usage.hash h w s = h w.data s) ∧
    (∀ (w₁ w₂ : Usage U T), Usage.eq w₁ w₂ = true →
      ∀ s : H, Usage.hash h w₁ s = Usage.hash h w₂ s) :=
  ⟨fun _ _ => rfl, fun _ _ he s => hcons _ _ he s⟩

/-- Witness for C7 at `U = Unit`, `T = Nat`, the additive hasher
`fun n s => s + n`, wrapper payloads `3` and `3`, state `10`. -/
theorem usage_hash_delegates_and_consistent_witness :
    Usage.hash (fun (n s : Nat) => s + n) (AsUsage.as_usage Unit 3) 10 = 13 ∧
    Usage.hash (fun (n s : Nat) => s + n) (AsUsage.as_usage Unit 3) 10 =
      Usage.hash (fun (n s : Nat) => s + n) (AsUsage.as_usage Unit 3) 10 := by
  have key := usage_hash_delegates_and_consistent Unit
    (fun (n s : Nat) => s + n)
    (fun a b hab s => by
      have : a = b := by simpa using hab
      rw [this])
  exact ⟨(key.1 (AsUsage.as_usage Unit 3) 10).trans rfl,
    key.2 (AsUsage.as_usage Unit 3) (AsUsage.as_usage Unit 3) (by decide) 10⟩

/-- C8: if the payload type `T` has a default value, then for any marker
`U` the default-constructed wrapper's unwrapped payload equals that
default value. -/
theorem usage_default_payload (U : Type u) (T : Type v) [Inhabited T] :
    Usage.into_inner (Usage.default U T) = (Inhabited.default : T) :=
  rfl

/-- C9: for every payload debug implementation `dbg`, marker type name, and
wrapper `w`, the debug rendering of `w` contains the debug rendering of
its payload as a substring (exhibited by an explicit prefix and suffix),
and likewise contains the marker type's name as a substring inside the
`PhantomData<...>` annotation. -/
theorem usage_fmt_contains_payload_and_marker (U : Type u) {T : Type v}
    (dbg : T → String) (typeName : String) (w : Usage U T) :
    (∃ p s : String, Usage.fmt dbg typeName w = p ++ dbg w.data ++ s) ∧
    (∃ p s : String, Usage.fmt dbg typeName w = p ++ typeName ++ s) :=
  ⟨⟨"Usage \x7b data: ",
    ", _phantom: \"PhantomData<" ++ typeName ++ ">\" \x7d", by
      simp [Usage.fmt, String.append_assoc]⟩,
   ⟨"Usage \x7b data: " ++ dbg w.data ++ ", _phantom: \"PhantomData<",
    ">\" \x7d", by
      simp [Usage.fmt, String.append_assoc]⟩⟩

/-- C10: writing `v` through either mutable access path (`deref_mut` or
`borrow_mut`) then unwrapping yields exactly `v`, and the only component
of the wrapper besides the payload (the phantom marker) is unchanged by
the write. -/
theorem usage_mut_write_targets_payload_only (U : Type u) {T : Type v}
    (w : Usage U T) (v : T) :
    Usage.into_inner (Usage.deref_mut_write w v) = v ∧
    Usage.into_inner (Usage.borrow_mut_write w v) = v ∧
    (Usage.deref_mut_write w v).phantom = w.phantom ∧
    (Usage.borrow_mut_write w v).phantom = w.phantom :=
  ⟨rfl, rfl, rfl, rfl⟩
